import Mathlib

/-!
Shallow embedding of the ContextOS signal-to-session orchestration engine.

The definitions below are translated from the Python sources under `src/`:
`models/session.py`, `models/signal.py`, `models/intent.py`,
`engine/output/formatter.py`, `engine/output/sessionbuilder.py`,
`engine/execution/react_agent.py`, `engine/intent/classifier.py`,
`engine/intent/detector.py`, `core/pipeline.py`, `interfaces/handler.py`.

External effects (LLM calls, the regex-based response parser, tool
execution, prompt-template loading, JSON decoding) are represented as
oracle parameters; all control flow, string manipulation and data-shape
logic is modelled concretely from the source.
-/

namespace ContextOS

/-- One element of an OpenAI-style content list
(`\x7b'type': 'text'/'image_url', ...\x7d`). -/
inductive ContentPart where
  | ctext (s : String)
  | cimage (url : String)
deriving DecidableEq, Repr

/-- Message content: either a plain string or a content-part list, matching
the two shapes used in the Python code. -/
inductive MContent where
  | str (s : String)
  | parts (ps : List ContentPart)
deriving DecidableEq, Repr

/-- A transcript message (`\x7brole, content\x7d`). -/
structure Message where
  role : String
  content : MContent
deriving DecidableEq, Repr

/-! ### Structurally recursive string primitives

Executable models of the Python string operations the source uses
(`strip`, `lower`, `startswith`, `endswith`, slicing, `split`, `join`),
defined over the character list so that concrete inputs evaluate inside
the kernel. -/

/-- `needle` is a leading segment of `hay`. -/
def charsStartWith : List Char → List Char → Bool
  | [], _ => true
  | _ :: _, [] => false
  | a :: as, b :: bs => a = b && charsStartWith as bs

/-- `needle` occurs somewhere inside `hay`. -/
def charsContain (needle : List Char) : List Char → Bool
  | [] => needle.isEmpty
  | c :: rest => charsStartWith needle (c :: rest) || charsContain needle rest

/-- Boolean substring test used to state claims about rendered prompts. -/
def strContains (hay needle : String) : Bool :=
  charsContain needle.data hay.data

/-- Python `str.strip()`: drop whitespace from both ends. -/
def pyStrip (s : String) : String :=
  String.mk (((s.data.dropWhile Char.isWhitespace).reverse.dropWhile
    Char.isWhitespace).reverse)

/-- Python `str.lower()` (ASCII reading). -/
def pyLower (s : String) : String :=
  String.mk (s.data.map Char.toLower)

/-- Python `str.startswith`. -/
def strStartsWith (s pre : String) : Bool :=
  charsStartWith pre.data s.data

/-- Python `str.endswith`. -/
def strEndsWith (s suf : String) : Bool :=
  charsStartWith suf.data.reverse s.data.reverse

/-- `s[n:]`. -/
def strDrop (s : String) (n : Nat) : String :=
  String.mk (s.data.drop n)

/-- `s[:-n]` (for `n ≤ len(s)`). -/
def strDropRight (s : String) (n : Nat) : String :=
  String.mk (s.data.take (s.data.length - n))

/-- Python `str.split('\n')` helper. -/
def splitLinesAux : List Char → List Char → List String
  | [], acc => [String.mk acc.reverse]
  | c :: rest, acc =>
    if c = '\n' then String.mk acc.reverse :: splitLinesAux rest []
    else splitLinesAux rest (c :: acc)

/-- Python `str.split('\n')`. -/
def splitLines (s : String) : List String :=
  splitLinesAux s.data []

/-- Python `sep.join(parts)`. -/
def joinWith (sep : String) : List String → String
  | [] => ""
  | [x] => x
  | x :: y :: rest => x ++ sep ++ joinWith sep (y :: rest)

/-- The tagged content union `\x7btype: text|image|multimodal, data: ...\x7d`
shared by `Signal.content` and `Intent.context`.  The multimodal case
carries text first, then the image, matching the `data[0]`/`data[1]`
accesses (and the `len == 2` assert) in the source. -/
inductive SigContent where
  | text (s : String)
  | image (url : String)
  | multimodal (s : String) (url : String)
deriving DecidableEq, Repr

/-- `models/signal.py`: the fields of `Signal` the engine reads
(metadata uuid/timestamp are not modelled). -/
structure Signal where
  source : String
  stype : String
  content : SigContent
deriving DecidableEq, Repr

/-- `models/intent.py`: the fields of `Intent` the engine reads. -/
structure Intent where
  target : String
  source : String
  context : SigContent
  level : String
deriving DecidableEq, Repr

/-- `models/session.py`: `Session` fields relevant to the claims.
`maxTurns` models `config['max_turns']`; timestamps and uuid metadata are
not modelled. -/
structure Session where
  level : String
  title : String
  status : String
  messages : List Message
  messages_to_user : List Message
  maxTurns : Int
  is_read : Bool
deriving DecidableEq, Repr

/-- `Session.add_message`: appends one message to `messages` and one to
`messages_to_user` (the `updated_at` timestamp update is not modelled). -/
def Session.add_message (s : Session) (message message_to_user : Message) : Session :=
  { s with
    messages := s.messages ++ [message]
    messages_to_user := s.messages_to_user ++ [message_to_user] }

/-- `Session.update_status`. -/
def Session.update_status (s : Session) (status : String) : Session :=
  { s with status := status }

/-- `Session.mark_as_unread` (idempotent flag clear). -/
def Session.mark_as_unread (s : Session) : Session :=
  { s with is_read := false }

/-- The dict returned by `ReactAgent.execute` (keys `user`, `assistant`,
`system_prompt`, `raw.assistant`), which is exactly what
`Formatter.format` consumes as `react_result`. -/
structure ReactResult where
  user : List ContentPart
  assistant : String
  system_prompt : String
  raw_assistant : String
deriving DecidableEq, Repr

/-- The dict produced by `Formatter.format` and consumed by
`SessionBuilder.build`. -/
structure FormattedContent where
  level : String
  title : String
  messages : List Message
  messages_to_user : List Message
deriving DecidableEq, Repr

/-- `title[0].upper() + title[1:]` from `Formatter.format`. -/
def capitalizeFirst (t : String) : String :=
  match t.data with
  | [] => ""
  | c :: rest => String.mk (c.toUpper :: rest)

/-- `engine/output/formatter.py`, `Formatter.format`: builds the
three-element `messages` list (system, user, assistant) and the
one-element `messages_to_user` list (assistant only), the title from
`intent.target or 'Result'` capitalized, and copies `intent.level`. -/
def Formatter.format (react_result : ReactResult) (intent : Intent) : FormattedContent :=
  let title0 := if intent.target = "" then "Result" else intent.target
  { level := intent.level
    title := capitalizeFirst title0
    messages :=
      [ { role := "system", content := MContent.str react_result.system_prompt }
      , { role := "user", content := MContent.parts react_result.user }
      , { role := "assistant", content := MContent.str react_result.assistant } ]
    messages_to_user :=
      [ { role := "assistant", content := MContent.str react_result.raw_assistant } ] }

/-- `SessionBuilder._init_session_config`: `max_turns` is 0 for Notify,
the configured review budget for Review, 0 otherwise. -/
def SessionBuilder.initSessionConfig (maxTurnsReview : Int) (level : String) : Int :=
  if level = "Notify" then 0
  else if level = "Review" then maxTurnsReview
  else 0

/-- `engine/output/sessionbuilder.py`, `SessionBuilder.build`: creates a
pending `Session` from formatted content (ui_config and metadata
attachment are not modelled). -/
def SessionBuilder.build (maxTurnsReview : Int) (fc : FormattedContent) : Session :=
  { level := fc.level
    title := fc.title
    status := "pending"
    messages := fc.messages
    messages_to_user := fc.messages_to_user
    maxTurns := SessionBuilder.initSessionConfig maxTurnsReview fc.level
    is_read := false }

/-- `core/pipeline.py`, `Pipeline.route_signal`: the bounded queue is
modelled as a list with capacity `cap`; `queue.put(block=True, timeout=1.0)`
on a queue that is (and, with no consumer, stays) full raises `queue.Full`,
which `route_signal` catches, dropping the signal.  The function is total:
no exception reaches the caller. -/
def Pipeline.route_signal (cap : Nat) (q : List Signal) (signal : Signal) : List Signal :=
  if q.length < cap then q ++ [signal] else q

/-! ### ReactAgent (`engine/execution/react_agent.py`) -/

/-- Action parameters: the Python dict parsed from the LLM action text,
modelled as an insertion-ordered association list with string values. -/
abbrev Params := List (String × String)

/-- One `(thought, action_name, action_params, observation)` tuple of the
ReAct `context` list. -/
structure CtxEntry where
  thought : String
  action : String
  params : Params
  observation : String
deriving DecidableEq, Repr

/-- The ReAct `context` list. -/
abbrev RContext := List CtxEntry

/-- Oracles for the external effects of one ReAct iteration:
`llm` is `LLMClient.chat_completion` (system prompt and user content list
to response, may raise), `parseResp` is the regex-based
`_parse_llm_response` (response to `(thought, action_name, action_params)`,
may raise a parse error), `tool` is `ToolExecutor.execute` (may raise),
`systemPrompt` is the loaded `react_agent_system` template and
`promptUser` the `react_agent_user` template applied to
`(intent_target, text, history)`. -/
structure ReactOracle where
  llm : String → List ContentPart → Except String String
  parseResp : String → Except String (String × String × Params)
  tool : String → Params → Except String String
  systemPrompt : String
  promptUser : String → String → String → String

/-- `json.dumps(action_params, ensure_ascii=False)` on a string-valued
dict (escaping of special characters inside values is not modelled). -/
def paramsDump (ps : Params) : String :=
  "\x7b" ++ joinWith ", "
    (ps.map (fun kv => "\"" ++ kv.1 ++ "\": \"" ++ kv.2 ++ "\"")) ++ "\x7d"

/-- The lines `_format_history` emits for one non-skipped step. -/
def stepLines (i : Nat) (e : CtxEntry) : List String :=
  ["**Step " ++ toString i ++ ":**"]
    ++ (if e.thought = "" then [] else ["<thought>" ++ e.thought ++ "</thought>"])
    ++ ["<action>" ++ e.action ++ "(" ++ paramsDump e.params ++ ")</action>"
      , "Observation: " ++ e.observation ++ "\n"]

/-- The loop body of `_format_history`: steps are numbered by
`enumerate(context, 1)`; an entry whose action is `"error"` with an empty
params dict is skipped (its step number is still consumed). -/
def historyLines : Nat → RContext → List String
  | _, [] => []
  | i, e :: rest =>
    (if e.action = "error" ∧ e.params = [] then [] else stepLines i e)
      ++ historyLines (i + 1) rest

/-- `ReactAgent._format_history`: empty string for an empty context,
otherwise the `"## Previous Steps\n"` header followed by the rendered
steps, joined with newlines. -/
def formatHistory (context : RContext) : String :=
  if context = [] then ""
  else joinWith "\n" ("## Previous Steps\n" :: historyLines 1 context)

/-- The forced-finish instruction appended to the user prompt on the last
iteration. -/
def forcedFinishNote : String :=
  "\n\n**IMPORTANT: This is the last iteration. You MUST contain the finish() action in this step to provide the final answer.**"

/-- The text payload `_build_react_prompt` extracts from `intent.context`. -/
def intentText : SigContent → String
  | SigContent.text s => s
  | SigContent.image _ => "[NO TEXT]"
  | SigContent.multimodal s _ => s

/-- The optional image part `execute` appends to the LLM call content
(`if image:` - a falsy empty string is not appended). -/
def imagePartOf : SigContent → List ContentPart
  | SigContent.text _ => []
  | SigContent.image u => if u = "" then [] else [ContentPart.cimage u]
  | SigContent.multimodal _ u => if u = "" then [] else [ContentPart.cimage u]

/-- `ReactAgent._build_react_prompt`: returns
`(system_prompt, user_prompt)`; the forced-finish instruction is appended
to the user prompt exactly when `is_last_iteration` is true. -/
def buildReactPrompt (o : ReactOracle) (intent : Intent) (context : RContext)
    (is_last_iteration : Bool) : String × String :=
  let history := formatHistory context
  let prompt := o.promptUser intent.target (intentText intent.context) history
  (o.systemPrompt, if is_last_iteration then prompt ++ forcedFinishNote else prompt)

/-- `ReactAgent._is_finish_action`. -/
def isFinishAction (action_name : String) : Bool :=
  pyLower action_name = "finish"

/-- `params.get('result', '')` on the modelled dict. -/
def paramsGet (ps : Params) (k : String) : String :=
  match ps.lookup k with
  | some v => v
  | none => ""

/-- `ReactAgent._extract_final_result`: a missing or empty `result`
degrades to a placeholder string. -/
def extractFinalResult (ps : Params) : String :=
  let result := paramsGet ps "result"
  if result = "" then "Task completed (no result provided)" else result

/-- `context[-1][0] if context else ""`. -/
def lastThought (context : RContext) : String :=
  match context.getLast? with
  | some e => e.thought
  | none => ""

/-- The `try` block of one `execute` iteration: build the prompt and
content, call the LLM, parse, and either finish (`Sum.inl` with the
returned dict) or execute the tool and extend the context (`Sum.inr`).
Any `.error` models a Python exception escaping to the `except` clause. -/
def stepBody (o : ReactOracle) (intent : Intent) (context : RContext)
    (is_last_iteration : Bool) : Except String (ReactResult ⊕ RContext) :=
  let sp := buildReactPrompt o intent context is_last_iteration
  let llm_call_content := ContentPart.ctext sp.2 :: imagePartOf intent.context
  match o.llm sp.1 llm_call_content with
  | Except.error e => Except.error e
  | Except.ok llm_response =>
    match o.parseResp llm_response with
    | Except.error e => Except.error e
    | Except.ok (thought, action_name, action_params) =>
      if isFinishAction action_name then
        Except.ok (Sum.inl
          { user := llm_call_content
            assistant := llm_response
            system_prompt := sp.1
            raw_assistant := extractFinalResult action_params })
      else
        match o.tool action_name action_params with
        | Except.error e => Except.error e
        | Except.ok observation =>
          Except.ok (Sum.inr
            (context ++ [⟨thought, action_name, action_params, observation⟩]))

/-- One `execute` iteration including the `except` clause: an exception
becomes a `(last thought or "", "error", empty params, "Error: ...")`
tuple appended to the context, and the loop proceeds. -/
def runIteration (o : ReactOracle) (intent : Intent) (max_iterations iteration : Nat)
    (context : RContext) : ReactResult ⊕ RContext :=
  match stepBody o intent context (iteration == max_iterations) with
  | Except.ok r => r
  | Except.error e =>
    Sum.inr (context ++ [⟨lastThought context, "error", [], "Error: " ++ e⟩])

/-- Trace record of one executed iteration: its 1-based index, the context
at its start, and the user prompt built for it. -/
structure IterRec where
  idx : Nat
  ctxBefore : RContext
  prompt : String
deriving DecidableEq, Repr

/-- The `for iteration in range(1, max_iterations + 1)` loop of
`ReactAgent.execute`, instrumented with a trace of executed iterations.
Exhausting the iteration list models falling out of the loop and raising
`RuntimeError("ReAct loop completed without finish action")`. -/
def executeLoop (o : ReactOracle) (intent : Intent) (max_iterations : Nat) :
    List Nat → RContext → List IterRec × Except String ReactResult
  | [], _ => ([], Except.error "ReAct loop completed without finish action")
  | i :: rest, context =>
    let itRec : IterRec :=
      ⟨i, context, (buildReactPrompt o intent context (i == max_iterations)).2⟩
    match runIteration o intent max_iterations i context with
    | Sum.inl r => ([itRec], Except.ok r)
    | Sum.inr context' =>
      let out := executeLoop o intent max_iterations rest context'
      (itRec :: out.1, out.2)

/-- `ReactAgent.execute`: runs the loop over iterations `1..max_iterations`
starting from an empty context; returns the trace together with either the
finish dict or the fatal error. -/
def ReactAgent.execute (o : ReactOracle) (intent : Intent) (max_iterations : Nat) :
    List IterRec × Except String ReactResult :=
  executeLoop o intent max_iterations (List.range' 1 max_iterations) []

/-! ### Classifier (`engine/intent/classifier.py`) -/

/-- Oracles for the Classifier's external effects: `llm` is the whole
`chat_completion` call for this intent (may raise); `jsonLoads` is
`json.loads` restricted to string-valued JSON objects — `none` covers a
`JSONDecodeError` as well as a non-dict value or a non-string `level`
value, all of which raise inside `_parse_llm_classification` and reach the
same fallback. -/
structure ClassifierOracle where
  llm : Except String String
  jsonLoads : String → Option (List (String × String))

/-- The markdown-code-block stripping at the top of
`_parse_llm_classification`. -/
def stripMarkdownFences (llm_response : String) : String :=
  let response_text := pyStrip llm_response
  if strStartsWith response_text "```" then
    let lines := (splitLines response_text).drop 1
    let lines :=
      if lines ≠ [] ∧ pyStrip ((lines.getLast?).getD "") = "```" then lines.dropLast
      else lines
    pyStrip (joinWith "\n" lines)
  else response_text

/-- `classification.get(k, d)` on the modelled dict. -/
def objGet (obj : List (String × String)) (k d : String) : String :=
  match obj.lookup k with
  | some v => v
  | none => d

/-- `Classifier._parse_llm_classification`: strip fences, JSON-parse,
read and strip `level`, and validate `level ∈ ['Notify', 'Review']`,
raising on any other value. -/
def parseLLMClassification (jsonLoads : String → Option (List (String × String)))
    (llm_response : String) : Except String String :=
  match jsonLoads (stripMarkdownFences llm_response) with
  | none => Except.error "Invalid JSON in LLM response"
  | some classification =>
    let level := pyStrip (objGet classification "level" "")
    if level = "Notify" ∨ level = "Review" then Except.ok level
    else Except.error ("Invalid level " ++ level)

/-- `Classifier.classify`: LLM classification with a `'Notify'` fallback on
any exception, then the `intent.level` side-effect; returns the level and
the mutated intent. -/
def Classifier.classify (o : ClassifierOracle) (intent : Intent) : String × Intent :=
  let attempt : Except String String :=
    match o.llm with
    | Except.error e => Except.error e
    | Except.ok r => parseLLMClassification o.jsonLoads r
  let level :=
    match attempt with
    | Except.ok l => l
    | Except.error _ => "Notify"
  (level, { intent with level := level })

/-! ### Detector (`engine/intent/detector.py`) -/

/-- The value of the `target` field of the detection JSON: JSON `null` or
a string. -/
inductive TargetVal where
  | tnull
  | tstr (s : String)
deriving DecidableEq, Repr

/-- Outcome of `json.loads` on the detection response: a decode failure, a
non-dict JSON value (on which the subsequent `.get` raises
`AttributeError`), or a dict with an optional `target` field. -/
inductive JsonDetect where
  | failure
  | nonObj
  | obj (target : Option TargetVal)
deriving DecidableEq, Repr

/-- Oracles for the Detector: `llm` is the whole `_call_llm_for_intent`
call (may raise); `jsonParse` is `json.loads` on the response. -/
structure DetectorOracle where
  llm : Except String String
  jsonParse : String → JsonDetect

/-- `target is None or target == 'null' or target == 'None'` (a missing
key yields the `'unknown'` default, which is not nullish). -/
def targetNullish : Option TargetVal → Bool
  | some TargetVal.tnull => true
  | some (TargetVal.tstr s) => s = "null" ∨ s = "None"
  | none => false

/-- `response_data.get('target', 'unknown')` as a string (the nullish case
is filtered out before this is used). -/
def targetOf : Option TargetVal → String
  | none => "unknown"
  | some TargetVal.tnull => "unknown"
  | some (TargetVal.tstr s) => s

/-- `Detector._parse_llm_response`: a `JSONDecodeError` degrades to a
generic `'process text'` intent; a nullish `target` yields `none`;
otherwise an intent with the placeholder level `'Notify'` is created.  A
non-dict JSON value raises out of this function. -/
def parseDetectorResponse (o : DetectorOracle) (response : String) (signal : Signal) :
    Except String (Option Intent) :=
  match o.jsonParse response with
  | JsonDetect.failure =>
    Except.ok (some
      { target := "process text", source := signal.source
        context := signal.content, level := "Notify" })
  | JsonDetect.nonObj => Except.error "no attribute get"
  | JsonDetect.obj t =>
    if targetNullish t then Except.ok none
    else
      Except.ok (some
        { target := targetOf t, source := signal.source
          context := signal.content, level := "Notify" })

/-- `Detector.detect`: LLM call plus parse inside a `try`; any exception
is caught and converted to a best-effort `'[ERROR]'` intent tagged
`'Notify'` whose context carries the stringified exception. -/
def Detector.detect (o : DetectorOracle) (signal : Signal) : Option Intent :=
  match (match o.llm with
         | Except.error e => Except.error e
         | Except.ok r => parseDetectorResponse o r signal) with
  | Except.ok res => res
  | Except.error e =>
    some
      { target := "[ERROR]", source := signal.source
        context := SigContent.text e, level := "Notify" }

/-! ### Handler (`interfaces/handler.py`) -/

/-- `Handler._handle_button_content_to_message`.  Faithful to the source:
`btx` is lowercased but compared with capitalized literals, so the
special-case branches never fire and the text falls through unchanged. -/
def handleButtonContent (button_text : String) : String :=
  let btx := pyLower (pyStrip button_text)
  if btx = "Yes" ∨ btx = "Approve" ∨ btx = "Confirm" ∨ btx = "OK" then
    "User approved to confirm this message."
  else if btx = "No" ∨ btx = "Reject" ∨ btx = "Dismiss" ∨ btx = "Cancel" then
    "User rejected this message."
  else button_text

/-- `Handler._append_message`: `Session.add_message`, then
`mark_as_unread` when the appended `messages` entry is an assistant
message (the UI-refresh signal emission is not modelled). -/
def appendMessage (s : Session) (message message_to_user : Message) : Session :=
  let s' := s.add_message message message_to_user
  if message.role = "assistant" then s'.mark_as_unread else s'

/-- `Handler._check_continuation`: never for `max_turns = 0`, always for
`max_turns = -1`, else compare the count of user messages with the
budget. -/
def checkContinuation (s : Session) : Bool :=
  if s.maxTurns = 0 then false
  else if s.maxTurns = -1 then true
  else ((s.messages.filter (fun m => m.role = "user")).length : Int) < s.maxTurns

/-- `Handler.finalize_session` as it affects the session itself: status
becomes `'completed'` (timer cleanup, removal from `active_sessions` and
the completion signal are bookkeeping outside the session). -/
def finalizeSession (s : Session) : Session :=
  s.update_status "completed"

/-- `Handler.on_user_input` for a session present in `active_sessions`:
the `/finish` command appends the user `/finish` message to `messages`
paired with a synthetic user-role notice in `messages_to_user` and
finalizes without calling the agent; otherwise a bracketed button token is
mapped, the user message pair is appended, and continuation either starts
a `ReactWorkerThread` (modelled by the returned `true` flag, the actual
`execute_continue` running in the background) or finalizes. -/
def Handler.on_user_input (s : Session) (user_message : String) : Session × Bool :=
  if pyLower (pyStrip user_message) = "/finish" then
    let s :=
      appendMessage s
        ⟨"user", MContent.parts [ContentPart.ctext "/finish"]⟩
        ⟨"user", MContent.parts [ContentPart.ctext "You have finished this conversation."]⟩
    (finalizeSession s, false)
  else
    let user_message :=
      if strStartsWith user_message "<||" ∧ strEndsWith user_message "||>" then
        handleButtonContent (strDropRight (strDrop user_message 3) 3)
      else user_message
    let s :=
      appendMessage s
        ⟨"user", MContent.parts [ContentPart.ctext user_message]⟩
        ⟨"user", MContent.parts [ContentPart.ctext user_message]⟩
    if checkContinuation s then (s, true)
    else (finalizeSession s, false)

/-- `Handler._on_react_error`, the slot connected to
`ReactWorkerThread.error_occurred`: appends an error-tagged assistant
message pair to the session.  It does not call `update_status`. -/
def onReactError (s : Session) (error : String) : Session :=
  let error_message : Message := ⟨"assistant", MContent.str ("[Error] " ++ error)⟩
  appendMessage s error_message error_message

/-- `Handler.handle_error`: sets status `'error'` then appends an
`'[ERROR]'` assistant pair.  No caller in the repository connects it to the
continuation worker's error signal. -/
def handleError (s : Session) (error : String) : Session :=
  let s := s.update_status "error"
  let error_message : Message := ⟨"assistant", MContent.str ("[ERROR] " ++ error)⟩
  appendMessage s error_message error_message

/-! ### `ReactAgent._parse_action_params` (`engine/execution/react_agent.py`) -/

/-- The single-quote character (codepoint 39). -/
def squote : Char := Char.ofNat 39

/-- A regex `\w` character (ASCII reading: alphanumeric or underscore). -/
def isWordChar (c : Char) : Bool := c.isAlphanum || c = '_'

/-- Attempt to match the pattern `(\w+)\s*[=:]\s*` at the head of `l`.
Returns the captured key and the total matched length.  The match is
deterministic: `\w+` must be maximal (a shorter take leaves a word
character where `[=:]` is required), and likewise each `\s*`. -/
def matchKeyAt (l : List Char) : Option (String × Nat) :=
  let w := l.takeWhile isWordChar
  if w.isEmpty then none
  else
    let rest1 := l.drop w.length
    let sp1 := rest1.takeWhile Char.isWhitespace
    match rest1.drop sp1.length with
    | [] => none
    | c :: rest3 =>
      if c = '=' ∨ c = ':' then
        let sp2 := rest3.takeWhile Char.isWhitespace
        some (String.mk w, w.length + sp1.length + 1 + sp2.length)
      else none

/-- `re.finditer(r'(\w+)\s*[=:]\s*', params_text)`: scan left to right,
recording `(key, match end)` for each non-overlapping match and resuming
after it.  The fuel argument only bounds the recursion; every step
consumes at least one character, so `length + 1` fuel never runs out. -/
def findKeysAux : Nat → Nat → List Char → List (String × Nat)
  | 0, _, _ => []
  | _, _, [] => []
  | fuel + 1, p, c :: rest =>
    match matchKeyAt (c :: rest) with
    | some (k, len) => (k, p + len) :: findKeysAux fuel (p + len) ((c :: rest).drop len)
    | none => findKeysAux fuel (p + 1) rest

/-- The `key_positions` list of `_parse_action_params`, reduced to the
`(key, eq_end)` components it actually uses. -/
def keyPositions (chars : List Char) : List (String × Nat) :=
  findKeysAux (chars.length + 1) 0 chars

/-- `remaining.find(c, start)`. -/
def strFindFrom (l : List Char) (c : Char) (start : Nat) : Option Nat :=
  match (l.drop start).findIdx? (fun x => x = c) with
  | some i => some (start + i)
  | none => none

/-- `after_quote = remaining[pos + 1:].strip(); not after_quote or
after_quote[0] in ',)'`. -/
def afterQuoteOk (l : List Char) (pos : Nat) : Bool :=
  match (l.drop (pos + 1)).dropWhile Char.isWhitespace with
  | [] => true
  | c :: _ => c = ',' || c = ')'

/-- The `while pos < len(remaining)` closing-quote scan: find the next
occurrence of the quote character; accept it when it is followed (modulo
whitespace) by nothing, a comma, or a closing paren, else search on from
the next position.  `pos` strictly increases, so `length + 1` fuel never
runs out. -/
def scanClose (l : List Char) (qc : Char) : Nat → Nat → Option Nat
  | 0, _ => none
  | fuel + 1, pos =>
    if pos < l.length then
      match strFindFrom l qc pos with
      | none => none
      | some p => if afterQuoteOk l p then some p else scanClose l qc fuel (p + 1)
    else none

/-- `remaining.rfind(c)`: index of the last occurrence (callers guard on
containment, so the 0 default for absence is never used). -/
def rfindChar (l : List Char) (c : Char) : Nat :=
  match l.reverse.findIdx? (fun x => x = c) with
  | some i => l.length - 1 - i
  | none => 0

/-- The value extraction of `_parse_action_params` for one key, given
`remaining = params_text[eq_end:]` with `remaining[0]` the quote
character: scan for the closing quote, falling back to the last quote
occurrence (or the final character) when the scan fails, and slice
`remaining[1:value_end]`. -/
def extractValue (qc : Char) (remaining : List Char) : String :=
  let value_end :=
    match scanClose remaining qc (remaining.length + 1) 1 with
    | some p => p
    | none =>
      if (remaining.drop 1).contains qc then rfindChar remaining qc
      else remaining.length - 1
  String.mk ((remaining.drop 1).take (value_end - 1))

/-- `params[key] = value` on the insertion-ordered dict model. -/
def paramsInsert (ps : Params) (k v : String) : Params :=
  if ps.any (fun kv => kv.1 = k) then
    ps.map (fun kv => if kv.1 = k then (k, v) else kv)
  else ps ++ [(k, v)]

/-- The per-key body of the `for key, _, eq_end in key_positions` loop: an
empty remainder or a remainder that does not start with a quote character
is skipped (`continue`), otherwise the extracted value is stored. -/
def processKey (chars : List Char) (acc : Params) (ke : String × Nat) : Params :=
  match chars.drop ke.2 with
  | [] => acc
  | qc :: _ =>
    if qc = '"' ∨ qc = squote then
      paramsInsert acc ke.1 (extractValue qc (chars.drop ke.2))
    else acc

/-- The `key=value` fallback branch of `_parse_action_params`. -/
def kvParse (pt : String) : Params :=
  (keyPositions pt.data).foldl (processKey pt.data) []

/-- The strict-JSON attempt: `json.loads` is tried only when the trimmed
text starts with an opening brace and ends with a closing brace; the
`jsonLoads` oracle returns the parsed object or `none` for a
`JSONDecodeError`. -/
def jsonAttempt (jsonLoads : String → Option Params) (pt : String) : Option Params :=
  if strStartsWith pt "\x7b" ∧ strEndsWith pt "\x7d" then jsonLoads pt else none

/-- `ReactAgent._parse_action_params`: empty input gives the empty dict;
then strict JSON, then the quoted `key=value`/`key:value` grammar.  The
function is total: no input raises. -/
def parseActionParams (jsonLoads : String → Option Params) (params_text : String) : Params :=
  if pyStrip params_text = "" then []
  else
    let pt := pyStrip params_text
    match jsonAttempt jsonLoads pt with
    | some ps => ps
    | none => kvParse pt

/-- `remaining[0] in ['"', "'"]` as a predicate on the remainder list. -/
def isQuoteStart : List Char → Bool
  | [] => false
  | c :: _ => c = '"' || c = squote

/-! ### Concrete sample inputs used by witnesses and counterexamples -/

/-- A concrete intent. -/
def sampleIntent : Intent :=
  { target := "translate text", source := "clipboard"
    context := SigContent.text "hola", level := "Notify" }

/-- A concrete finish dict as returned by `ReactAgent.execute`. -/
def sampleReactResult : ReactResult :=
  { user := [ContentPart.ctext "prompt"]
    assistant := "<action>finish(result=\"X\")</action>"
    system_prompt := "sys", raw_assistant := "X" }

/-- A concrete message. -/
def sampleMsg : Message := ⟨"user", MContent.parts [ContentPart.ctext "hi"]⟩

/-- Two concrete signals. -/
def sampleSignal : Signal :=
  { source := "clipboard", stype := "event", content := SigContent.text "asdkjh" }

/-- A second concrete signal. -/
def sampleSignal2 : Signal :=
  { source := "clipboard", stype := "event", content := SigContent.text "second" }

/-- A ReAct oracle whose model keeps emitting a `search` action and never
finishes; the prompt template is a concrete stand-in. -/
def oracleNoFinish : ReactOracle :=
  { llm := fun _ _ => Except.ok "<action>search(query=\"x\")</action>"
    parseResp := fun _ => Except.ok ("think", "search", [("query", "x")])
    tool := fun _ _ => Except.ok "42"
    systemPrompt := "SYS"
    promptUser := fun target text history =>
      "TARGET: " ++ target ++ "\nTEXT: " ++ text ++ "\nHISTORY: " ++ history }

/-- A ReAct oracle whose LLM call always raises `boom`; the user-prompt
template renders exactly the history block. -/
def oracleBoom : ReactOracle :=
  { llm := fun _ _ => Except.error "boom"
    parseResp := fun _ => Except.error "No Action found in LLM response"
    tool := fun _ _ => Except.ok ""
    systemPrompt := "SYS"
    promptUser := fun _ _ history => history }

/-- The trace record of the single iteration of
`ReactAgent.execute oracleNoFinish sampleIntent 1`. -/
def firstIter : IterRec :=
  ⟨1, [], "TARGET: translate text\nTEXT: hola\nHISTORY: " ++ forcedFinishNote⟩

/-- A classifier oracle whose LLM call raises. -/
def classifierOracleFail : ClassifierOracle :=
  { llm := Except.error "timeout", jsonLoads := fun _ => none }

/-- A classifier oracle whose LLM call succeeds but whose response fails to
parse as JSON. -/
def classifierOracleBadJson : ClassifierOracle :=
  { llm := Except.ok "not json", jsonLoads := fun _ => none }

/-- A classifier oracle whose response parses to a JSON object carrying a
level outside the valid set. -/
def classifierOracleBadLevel : ClassifierOracle :=
  { llm := Except.ok "resp", jsonLoads := fun _ => some [("level", "Urgent")] }

/-- A detector oracle whose response parses to a JSON object with a null
`target`. -/
def detectorOracleNull : DetectorOracle :=
  { llm := Except.ok "resp", jsonParse := fun _ => JsonDetect.obj (some TargetVal.tnull) }

/-- A concrete active Review session with the transcript shape produced by
`SessionBuilder.build` plus a first assistant turn. -/
def sampleReviewSession : Session :=
  { level := "Review", title := "T", status := "active"
    messages :=
      [⟨"system", MContent.str "sys"⟩
      , ⟨"user", MContent.parts [ContentPart.ctext "prompt"]⟩
      , ⟨"assistant", MContent.str "answer"⟩]
    messages_to_user := [⟨"assistant", MContent.str "answer"⟩]
    maxTurns := -1, is_read := true }

/-! ## Theorems -/

/-- Claim C1, counterexample: the session built from `Formatter.format`
output has three `messages` (system, user, assistant) but a single
`messages_to_user` entry (assistant only), so the equal-length invariant
fails already at build time. -/
theorem C1_counterexample :
    (SessionBuilder.build (-1) (Formatter.format sampleReactResult sampleIntent)).messages.length ≠
      (SessionBuilder.build (-1) (Formatter.format sampleReactResult sampleIntent)).messages_to_user.length := by
  decide

/-- Claim C1, amended: for every session produced by `SessionBuilder.build`
from `Formatter.format` output, `len(messages) = len(messages_to_user) + 2`
(not equality); this offset is preserved by `Session.add_message` and by
the handler's `_append_message` path, which append exactly one message to
each list. -/
theorem C1_theorem (maxTurnsReview : Int) (r : ReactResult) (i : Intent) :
    ((SessionBuilder.build maxTurnsReview (Formatter.format r i)).messages.length =
      (SessionBuilder.build maxTurnsReview (Formatter.format r i)).messages_to_user.length + 2) ∧
    (∀ (s : Session) (m mu : Message),
      s.messages.length = s.messages_to_user.length + 2 →
      (s.add_message m mu).messages.length = (s.add_message m mu).messages_to_user.length + 2) ∧
    (∀ (s : Session) (m mu : Message),
      s.messages.length = s.messages_to_user.length + 2 →
      (appendMessage s m mu).messages.length = (appendMessage s m mu).messages_to_user.length + 2) := by
  refine ⟨rfl, ?_, ?_⟩
  · intro s m mu h
    simp [Session.add_message, h]
  · intro s m mu h
    simp only [appendMessage]
    split <;> simp [Session.add_message, Session.mark_as_unread, h]

/-- Claim C1, witness: the amended invariant evaluated on a concrete
session built from concrete formatter output, and preserved across one
concrete `add_message`. -/
theorem C1_witness :
    ((SessionBuilder.build (-1) (Formatter.format sampleReactResult sampleIntent)).messages.length =
      (SessionBuilder.build (-1) (Formatter.format sampleReactResult sampleIntent)).messages_to_user.length + 2) ∧
    (((SessionBuilder.build (-1) (Formatter.format sampleReactResult sampleIntent)).add_message
        sampleMsg sampleMsg).messages.length =
      ((SessionBuilder.build (-1) (Formatter.format sampleReactResult sampleIntent)).add_message
        sampleMsg sampleMsg).messages_to_user.length + 2) :=
  ⟨(C1_theorem (-1) sampleReactResult sampleIntent).1,
    (C1_theorem (-1) sampleReactResult sampleIntent).2.1 _ sampleMsg sampleMsg
      (C1_theorem (-1) sampleReactResult sampleIntent).1⟩

/-- Claim C7: enqueuing on a full bounded queue (which stays full for the
whole bounded put timeout, there being no consumer) drops the new signal:
`route_signal` returns with the queue's contents, and hence their FIFO
order, unchanged, and no exception reaches the caller (the function is
total). -/
theorem C7_theorem (cap : Nat) (q : List Signal) (signal : Signal) (h : cap ≤ q.length) :
    Pipeline.route_signal cap q signal = q := by
  unfold Pipeline.route_signal
  rw [if_neg]
  omega

/-- Claim C7, witness: capacity 1, two back-to-back enqueues with no
consumer — the first signal is accepted, the second is dropped and the
first remains. -/
theorem C7_witness :
    Pipeline.route_signal 1 (Pipeline.route_signal 1 [] sampleSignal) sampleSignal2 =
      [sampleSignal] := by
  have h1 : Pipeline.route_signal 1 [] sampleSignal = [sampleSignal] := rfl
  rw [h1]
  exact C7_theorem 1 [sampleSignal] sampleSignal2 (by decide)

/-- Claim C9, counterexample: a failed background continuation is handled
by `_on_react_error` (the only slot connected to the worker's
`error_occurred` signal), which leaves the session status `'active'`: the
session does not transition to `'error'`. -/
theorem C9_counterexample :
    (onReactError sampleReviewSession "LLM timeout").status = "active" ∧
    (onReactError sampleReviewSession "LLM timeout").status ≠ "error" := by
  constructor
  · rfl
  · decide

/-- Claim C9, amended: a failed background continuation is delivered to
the session as an error-tagged assistant message (`[Error] ...`) appended
to both transcripts, and the session is marked unread — but its status is
left unchanged; no transition to `'error'` happens on this path
(`handle_error`, which would set `'error'`, is never connected to the
worker's error signal). -/
theorem C9_theorem (s : Session) (error : String) :
    (onReactError s error).messages =
      s.messages ++ [⟨"assistant", MContent.str ("[Error] " ++ error)⟩] ∧
    (onReactError s error).messages_to_user =
      s.messages_to_user ++ [⟨"assistant", MContent.str ("[Error] " ++ error)⟩] ∧
    (onReactError s error).status = s.status ∧
    (onReactError s error).is_read = false := by
  simp [onReactError, appendMessage, Session.add_message, Session.mark_as_unread]

/-- A successful `_parse_llm_classification` yields only a validated
level. -/
theorem parseLLMClassification_valid (jl : String → Option (List (String × String)))
    (r l : String) (h : parseLLMClassification jl r = Except.ok l) :
    l = "Notify" ∨ l = "Review" := by
  unfold parseLLMClassification at h
  cases hj : jl (stripMarkdownFences r) with
  | none => rw [hj] at h; exact absurd h (by simp)
  | some classification =>
    rw [hj] at h
    dsimp only at h
    split at h
    · cases h
      assumption
    · exact absurd h (by simp)

/-- Claim C5: `Classifier.classify` returns exactly one of `'Notify'` or
`'Review'`; any exception during classification — an LLM failure, a JSON
parse failure of the response, or a level outside the valid set — yields
the fallback `'Notify'` instead of raising; and in all cases the returned
level is assigned to `intent.level`. -/
theorem C5_theorem (o : ClassifierOracle) (intent : Intent) :
    ((Classifier.classify o intent).1 = "Notify" ∨
      (Classifier.classify o intent).1 = "Review") ∧
    ((Classifier.classify o intent).2).level = (Classifier.classify o intent).1 ∧
    (∀ e, o.llm = Except.error e → (Classifier.classify o intent).1 = "Notify") ∧
    (∀ r, o.llm = Except.ok r → o.jsonLoads (stripMarkdownFences r) = none →
      (Classifier.classify o intent).1 = "Notify") ∧
    (∀ r obj, o.llm = Except.ok r → o.jsonLoads (stripMarkdownFences r) = some obj →
      ¬(pyStrip (objGet obj "level" "") = "Notify" ∨
        pyStrip (objGet obj "level" "") = "Review") →
      (Classifier.classify o intent).1 = "Notify") := by
  refine ⟨?_, ?_, ?_, ?_, ?_⟩
  · unfold Classifier.classify
    cases hl : o.llm with
    | error e => simp [hl]
    | ok r =>
      simp only [hl]
      cases hp : parseLLMClassification o.jsonLoads r with
      | error e => simp [hp]
      | ok l =>
        simpa [hp] using parseLLMClassification_valid o.jsonLoads r l hp
  · unfold Classifier.classify
    rfl
  · intro e he
    unfold Classifier.classify
    simp [he]
  · intro r hr hj
    unfold Classifier.classify
    rw [hr]
    dsimp only
    unfold parseLLMClassification
    rw [hj]
  · intro r obj hr hj hv
    unfold Classifier.classify
    rw [hr]
    dsimp only
    unfold parseLLMClassification
    rw [hj]
    dsimp only
    rw [if_neg hv]

/-- Claim C5, witness: the fallback level `'Notify'` is returned (and
assigned to the intent) on concrete oracles for all three failure modes —
an LLM exception, a JSON parse failure, and an invalid level. -/
theorem C5_witness :
    (Classifier.classify classifierOracleFail sampleIntent).1 = "Notify" ∧
    ((Classifier.classify classifierOracleFail sampleIntent).2).level =
      (Classifier.classify classifierOracleFail sampleIntent).1 ∧
    (Classifier.classify classifierOracleBadJson sampleIntent).1 = "Notify" ∧
    (Classifier.classify classifierOracleBadLevel sampleIntent).1 = "Notify" :=
  ⟨(C5_theorem classifierOracleFail sampleIntent).2.2.1 "timeout" rfl,
    (C5_theorem classifierOracleFail sampleIntent).2.1,
    (C5_theorem classifierOracleBadJson sampleIntent).2.2.2.1 "not json" rfl rfl,
    (C5_theorem classifierOracleBadLevel sampleIntent).2.2.2.2 "resp"
      [("level", "Urgent")] rfl rfl (by decide)⟩

/-- Claim C6: `Detector.detect` returns `none` exactly when the LLM call
succeeds and the response parses as a JSON object whose `target` is null,
`'null'` or `'None'`; a JSON decode failure degrades to a generic
`'process text'` intent; an LLM exception (and likewise the non-object
exception) yields a best-effort `'[ERROR]'` intent tagged `'Notify'`
instead of propagating. -/
theorem C6_theorem (o : DetectorOracle) (signal : Signal) :
    (Detector.detect o signal = none ↔
      ∃ r, o.llm = Except.ok r ∧
        ∃ t, o.jsonParse r = JsonDetect.obj t ∧ targetNullish t = true) ∧
    (∀ r, o.llm = Except.ok r → o.jsonParse r = JsonDetect.failure →
      Detector.detect o signal = some
        { target := "process text", source := signal.source
          context := signal.content, level := "Notify" }) ∧
    (∀ e, o.llm = Except.error e →
      Detector.detect o signal = some
        { target := "[ERROR]", source := signal.source
          context := SigContent.text e, level := "Notify" }) ∧
    (∀ r, o.llm = Except.ok r → o.jsonParse r = JsonDetect.nonObj →
      Detector.detect o signal = some
        { target := "[ERROR]", source := signal.source
          context := SigContent.text "no attribute get", level := "Notify" }) := by
  refine ⟨?_, ?_, ?_, ?_⟩
  · unfold Detector.detect parseDetectorResponse
    cases hl : o.llm with
    | error e => simp [hl]
    | ok r =>
      simp only [hl]
      cases hj : o.jsonParse r with
      | failure => simp [hj, hl]
      | nonObj => simp [hj, hl]
      | obj t =>
        by_cases hn : targetNullish t = true
        · simp [hj, hl, hn]
        · simp only [hj]
          rw [if_neg (by simpa using hn)]
          simp [hl, hj, hn]
  · intro r hr hf
    unfold Detector.detect parseDetectorResponse
    simp [hr, hf]
  · intro e he
    unfold Detector.detect
    simp [he]
  · intro r hr hn
    unfold Detector.detect parseDetectorResponse
    simp [hr, hn]

/-- Claim C6, witness: a concrete oracle returning `\x7b"target": null\x7d`
makes `detect` return `none`. -/
theorem C6_witness : Detector.detect detectorOracleNull sampleSignal = none :=
  (C6_theorem detectorOracleNull sampleSignal).1.mpr
    ⟨"resp", rfl, some TargetVal.tnull, rfl, rfl⟩

/-- Claim C8, counterexample: on `'/finish'` the handler appends one
message pair, both entries with role `'user'` (the `messages_to_user`
entry is the synthetic notice `You have finished this conversation.`) —
no assistant message is appended, contradicting the claim's synthetic
assistant message. -/
theorem C8_counterexample :
    (((Handler.on_user_input sampleReviewSession "/finish").1.messages.drop
        sampleReviewSession.messages.length).all (fun m => m.role != "assistant") = true) ∧
    (((Handler.on_user_input sampleReviewSession "/finish").1.messages_to_user.drop
        sampleReviewSession.messages_to_user.length).all (fun m => m.role != "assistant") = true) ∧
    ((Handler.on_user_input sampleReviewSession "/finish").1.messages_to_user.getLast?.map
        Message.role = some "user") := by
  decide

/-- Claim C8, amended: for an active Review session, input normalizing to
`'/finish'` appends a user message `'/finish'` to `messages`, paired with
a synthetic user-role notice (`You have finished this conversation.`) in
`messages_to_user`, and the session transitions directly to `'completed'`
with no call into the agent (no `execute_continue` worker is started). -/
theorem C8_theorem (s : Session) (user_message : String)
    (h : pyLower (pyStrip user_message) = "/finish") :
    Handler.on_user_input s user_message =
      ({ s with
          status := "completed"
          messages := s.messages ++ [⟨"user", MContent.parts [ContentPart.ctext "/finish"]⟩]
          messages_to_user := s.messages_to_user ++
            [⟨"user", MContent.parts
              [ContentPart.ctext "You have finished this conversation."]⟩] },
        false) := by
  unfold Handler.on_user_input
  rw [if_pos h]
  simp [appendMessage, Session.add_message, finalizeSession, Session.update_status]

/-- Claim C8, witness: the amended behavior on a concrete Review
session. -/
theorem C8_witness :
    Handler.on_user_input sampleReviewSession "/finish" =
      ({ sampleReviewSession with
          status := "completed"
          messages := sampleReviewSession.messages ++
            [⟨"user", MContent.parts [ContentPart.ctext "/finish"]⟩]
          messages_to_user := sampleReviewSession.messages_to_user ++
            [⟨"user", MContent.parts
              [ContentPart.ctext "You have finished this conversation."]⟩] },
        false) :=
  C8_theorem sampleReviewSession "/finish" rfl

/-- Trace shape of the ReAct loop: it executes at most one iteration per
list element, and every executed iteration's prompt is the one built by
`_build_react_prompt` from the context at its start, with the
`is_last_iteration` flag set exactly on the index equal to
`max_iterations`. -/
theorem executeLoop_trace (o : ReactOracle) (intent : Intent) (maxIter : Nat) :
    ∀ (l : List Nat) (ctx : RContext),
      (executeLoop o intent maxIter l ctx).1.length ≤ l.length ∧
      ∀ it ∈ (executeLoop o intent maxIter l ctx).1,
        it.prompt = (buildReactPrompt o intent it.ctxBefore (it.idx == maxIter)).2 := by
  intro l
  induction l with
  | nil =>
    intro ctx
    simp [executeLoop]
  | cons i rest ih =>
    intro ctx
    cases h : runIteration o intent maxIter i ctx with
    | inl r =>
      constructor
      · simp [executeLoop, h]
      · intro it hit
        simp [executeLoop, h] at hit
        subst hit
        rfl
    | inr ctx' =>
      constructor
      · have h1 := (ih ctx').1
        simp only [executeLoop, h, List.length_cons]
        omega
      · intro it hit
        simp [executeLoop, h] at hit
        rcases hit with hit | hit
        · subst hit; rfl
        · exact (ih ctx').2 it hit

/-- Claim C2: `ReactAgent.execute` performs at most `max_iterations` loop
iterations; the user prompt built for iteration `max_iterations` carries
the forced-finish instruction as a suffix, and the prompt of every other
iteration is exactly the unmodified template output, so the instruction is
injected only under the `is_last_iteration` condition. -/
theorem C2_theorem (o : ReactOracle) (intent : Intent) (max_iterations : Nat) :
    (ReactAgent.execute o intent max_iterations).1.length ≤ max_iterations ∧
    ∀ it ∈ (ReactAgent.execute o intent max_iterations).1,
      (it.idx = max_iterations →
        it.prompt =
          o.promptUser intent.target (intentText intent.context)
            (formatHistory it.ctxBefore) ++ forcedFinishNote) ∧
      (it.idx ≠ max_iterations →
        it.prompt =
          o.promptUser intent.target (intentText intent.context)
            (formatHistory it.ctxBefore)) := by
  have h := executeLoop_trace o intent max_iterations (List.range' 1 max_iterations) []
  constructor
  · simpa [ReactAgent.execute, List.length_range'] using h.1
  · intro it hit
    have hp := h.2 it hit
    constructor
    · intro he
      rw [hp, he]
      simp [buildReactPrompt]
    · intro hne
      rw [hp]
      have hb : (it.idx == max_iterations) = false := by
        simpa using hne
      rw [hb]
      simp [buildReactPrompt]

set_option maxRecDepth 4000 in
/-- Claim C2, witness: with `max_iterations = 1` and a model that never
finishes, the single iteration (which is the last) gets the forced-finish
suffix. -/
theorem C2_witness :
    (ReactAgent.execute oracleNoFinish sampleIntent 1).1.length ≤ 1 ∧
    firstIter.prompt =
      oracleNoFinish.promptUser sampleIntent.target (intentText sampleIntent.context)
        (formatHistory firstIter.ctxBefore) ++ forcedFinishNote :=
  ⟨(C2_theorem oracleNoFinish sampleIntent 1).1,
    ((C2_theorem oracleNoFinish sampleIntent 1).2 firstIter (by decide)).1 (by decide)⟩

/-- Under an oracle whose parsed actions are never `finish`, `stepBody`
cannot produce a finish result. -/
theorem stepBody_no_finish (o : ReactOracle) (intent : Intent)
    (h : ∀ s t n ps, o.parseResp s = Except.ok (t, n, ps) → isFinishAction n = false)
    (ctx : RContext) (b : Bool) (r : ReactResult) :
    stepBody o intent ctx b ≠ Except.ok (Sum.inl r) := by
  intro hsb
  unfold stepBody at hsb
  dsimp only at hsb
  cases hl : o.llm (buildReactPrompt o intent ctx b).1
      (ContentPart.ctext (buildReactPrompt o intent ctx b).2 :: imagePartOf intent.context) with
  | error e =>
    rw [hl] at hsb
    exact Except.noConfusion hsb
  | ok resp =>
    rw [hl] at hsb
    dsimp only at hsb
    cases hp : o.parseResp resp with
    | error e =>
      rw [hp] at hsb
      exact Except.noConfusion hsb
    | ok tnp =>
      obtain ⟨t, n, ps⟩ := tnp
      rw [hp] at hsb
      dsimp only at hsb
      rw [h resp t n ps hp] at hsb
      simp only [Bool.false_eq_true, if_false] at hsb
      cases hto : o.tool n ps with
      | error e =>
        rw [hto] at hsb
        exact Except.noConfusion hsb
      | ok obs =>
        rw [hto] at hsb
        dsimp only at hsb
        injection hsb with h2
        exact Sum.noConfusion h2

/-- Under a never-finishing oracle the loop runs every listed iteration
and ends in the fatal error, never earlier; exceptions inside iterations
do not shorten the trace. -/
theorem executeLoop_no_finish (o : ReactOracle) (intent : Intent)
    (h : ∀ s t n ps, o.parseResp s = Except.ok (t, n, ps) → isFinishAction n = false)
    (maxIter : Nat) :
    ∀ (l : List Nat) (ctx : RContext),
      (executeLoop o intent maxIter l ctx).2 =
        Except.error "ReAct loop completed without finish action" ∧
      (executeLoop o intent maxIter l ctx).1.length = l.length := by
  intro l
  induction l with
  | nil => intro ctx; simp [executeLoop]
  | cons i rest ih =>
    intro ctx
    cases hr : runIteration o intent maxIter i ctx with
    | inl r =>
      exfalso
      unfold runIteration at hr
      cases hsb : stepBody o intent ctx (i == maxIter) with
      | error e =>
        rw [hsb] at hr
        dsimp only at hr
        exact Sum.noConfusion hr
      | ok v =>
        rw [hsb] at hr
        dsimp only at hr
        cases v with
        | inl r' =>
          cases hr
          exact stepBody_no_finish o intent h ctx (i == maxIter) _ hsb
        | inr c => exact Sum.noConfusion hr
    | inr ctx' =>
      constructor
      · simp [executeLoop, hr, (ih ctx').1]
      · simp [executeLoop, hr, (ih ctx').2]

/-- Claim C3: if no parsed action name is case-insensitively `finish`
across all iterations, `ReactAgent.execute` surfaces the fatal
`RuntimeError` exactly after completing iteration `max_iterations` — the
trace has the full `max_iterations` length, so the error is raised neither
earlier nor by any exception inside an individual iteration. -/
theorem C3_theorem (o : ReactOracle) (intent : Intent) (max_iterations : Nat)
    (h : ∀ s t n ps, o.parseResp s = Except.ok (t, n, ps) → isFinishAction n = false) :
    (ReactAgent.execute o intent max_iterations).2 =
      Except.error "ReAct loop completed without finish action" ∧
    (ReactAgent.execute o intent max_iterations).1.length = max_iterations := by
  have h2 := executeLoop_no_finish o intent h max_iterations (List.range' 1 max_iterations) []
  exact ⟨h2.1, by simpa [List.length_range'] using h2.2⟩

/-- Claim C3, witness: a concrete model that always emits a `search`
action makes `execute` with budget 2 run both iterations and raise the
fatal error. -/
theorem C3_witness :
    (ReactAgent.execute oracleNoFinish sampleIntent 2).2 =
      Except.error "ReAct loop completed without finish action" ∧
    (ReactAgent.execute oracleNoFinish sampleIntent 2).1.length = 2 :=
  C3_theorem oracleNoFinish sampleIntent 2 (by
    intro s t n ps hp
    simp only [oracleNoFinish] at hp
    cases hp
    decide)

/-- An entry with action `error` and empty params contributes no rendered
lines, at any step numbering. -/
theorem historyLines_append_error (t obs : String) :
    ∀ (l : RContext) (i : Nat),
      historyLines i (l ++ [⟨t, "error", [], obs⟩]) = historyLines i l := by
  intro l
  induction l with
  | nil => intro i; simp [historyLines]
  | cons e rest ih => intro i; simp [historyLines, ih]

/-- `_format_history` filters the trailing error tuple out: rendering a
context extended with an error entry yields the bare header when the
context was empty, and the unchanged rendering otherwise. -/
theorem formatHistory_append_error (t obs : String) (ctx : RContext) :
    formatHistory (ctx ++ [⟨t, "error", [], obs⟩]) =
      (if ctx = [] then "## Previous Steps\n" else formatHistory ctx) := by
  by_cases hc : ctx = []
  · subst hc
    simp [formatHistory, historyLines, joinWith]
  · rw [if_neg hc]
    unfold formatHistory
    rw [if_neg (by simp), if_neg hc, historyLines_append_error]

/-- Claim C4, counterexample: with a model whose LLM call always raises
`boom` and a prompt template rendering exactly the history block, the
error tuple is appended and iteration 2 still runs — but the iteration-2
prompt is the bare history header plus the forced-finish note, and it
does not contain the `Error: boom` observation: the rendered history
omits error entries. -/
theorem C4_counterexample :
    ((ReactAgent.execute oracleBoom sampleIntent 2).1.map IterRec.ctxBefore =
      [[], [⟨"", "error", [], "Error: boom"⟩]]) ∧
    (((ReactAgent.execute oracleBoom sampleIntent 2).1.map IterRec.prompt).getLast? =
      some ("## Previous Steps\n" ++ forcedFinishNote)) ∧
    strContains ("## Previous Steps\n" ++ forcedFinishNote) "Error: boom" = false := by
  refine ⟨by decide, by decide, by decide⟩

/-- Claim C4, amended: any exception inside one iteration appends the
tuple `(previous thought or empty, 'error', empty params, 'Error: ...')`
to the context and the loop proceeds to the remaining iterations — but the
history rendered for the next iteration's prompt filters out error
entries (action `'error'` with empty params), so the error observation
does not appear in it. -/
theorem C4_theorem (o : ReactOracle) (intent : Intent) (max_iterations i : Nat)
    (rest : List Nat) (context : RContext) (e : String)
    (h : stepBody o intent context (i == max_iterations) = Except.error e) :
    (executeLoop o intent max_iterations (i :: rest) context =
      ((⟨i, context, (buildReactPrompt o intent context (i == max_iterations)).2⟩ : IterRec) ::
        (executeLoop o intent max_iterations rest
          (context ++ [⟨lastThought context, "error", [], "Error: " ++ e⟩])).1,
       (executeLoop o intent max_iterations rest
          (context ++ [⟨lastThought context, "error", [], "Error: " ++ e⟩])).2)) ∧
    formatHistory (context ++ [⟨lastThought context, "error", [], "Error: " ++ e⟩]) =
      (if context = [] then "## Previous Steps\n" else formatHistory context) := by
  constructor
  · have hr : runIteration o intent max_iterations i context =
        Sum.inr (context ++ [⟨lastThought context, "error", [], "Error: " ++ e⟩]) := by
      unfold runIteration
      rw [h]
    simp [executeLoop, hr]
  · exact formatHistory_append_error _ _ _

/-- Claim C4, witness: the amended behavior on the concrete always-raising
oracle at iteration 1 of 2. -/
theorem C4_witness :
    (executeLoop oracleBoom sampleIntent 2 [1, 2] [] =
      ((⟨1, [], (buildReactPrompt oracleBoom sampleIntent [] (1 == 2)).2⟩ : IterRec) ::
        (executeLoop oracleBoom sampleIntent 2 [2]
          ([] ++ [⟨lastThought [], "error", [], "Error: " ++ "boom"⟩])).1,
       (executeLoop oracleBoom sampleIntent 2 [2]
          ([] ++ [⟨lastThought [], "error", [], "Error: " ++ "boom"⟩])).2)) ∧
    formatHistory ([] ++ [⟨lastThought [], "error", [], "Error: " ++ "boom"⟩]) =
      (if ([] : RContext) = [] then "## Previous Steps\n" else formatHistory []) :=
  C4_theorem oracleBoom sampleIntent 2 1 [2] [] "boom" rfl

/-- Keys whose value does not start with a quote character are all
skipped, leaving the accumulator untouched. -/
theorem foldl_processKey_skip (chars : List Char) :
    ∀ (keys : List (String × Nat)) (acc : Params),
      (∀ ke ∈ keys, isQuoteStart (chars.drop ke.2) = false) →
      keys.foldl (processKey chars) acc = acc := by
  intro keys
  induction keys with
  | nil => intro acc _; rfl
  | cons ke rest ih =>
    intro acc hq
    have h1 : isQuoteStart (chars.drop ke.2) = false := hq ke (by simp)
    have h2 : processKey chars acc ke = acc := by
      unfold processKey
      cases hd : chars.drop ke.2 with
      | nil => simp
      | cons qc tl =>
        rw [hd] at h1
        simp only [isQuoteStart, Bool.or_eq_false_iff, decide_eq_false_iff_not] at h1
        simp only []
        rw [if_neg (by exact fun hc => hc.elim h1.1 h1.2)]
    rw [List.foldl_cons, h2]
    exact ih acc (fun k hk => hq k (List.mem_cons_of_mem _ hk))

/-- Claim C10: when the params text does not parse as a JSON object and no
found key's value starts with a single or double quote,
`_parse_action_params` returns the empty dict without raising — unquoted
`key=value` pairs are silently dropped, not reported as a parse error. -/
theorem C10_theorem (jsonLoads : String → Option Params) (params_text : String)
    (hjson : jsonAttempt jsonLoads (pyStrip params_text) = none)
    (hq : ∀ ke ∈ keyPositions (pyStrip params_text).data,
      isQuoteStart ((pyStrip params_text).data.drop ke.2) = false) :
    parseActionParams jsonLoads params_text = [] := by
  unfold parseActionParams
  by_cases he : pyStrip params_text = ""
  · rw [if_pos he]
  · rw [if_neg he]
    dsimp only
    simp only [hjson]
    unfold kvParse
    exact foldl_processKey_skip _ _ _ hq

/-- Claim C10, witness: the unquoted text
`query=search terms, limit=10` yields the empty dict. -/
theorem C10_witness :
    parseActionParams (fun _ => none) "query=search terms, limit=10" = [] :=
  C10_theorem (fun _ => none) "query=search terms, limit=10" rfl (by decide)

end ContextOS
